import Mathlib

/-!
# In-Page Bookmarks: verification of the bookmark store, message dispatcher,
# position codec and page heuristics

A shallow embedding of the core logic of the In-Page Bookmarks extension:

* the bookmark store and message dispatcher (`src/lib/background-logic.ts`),
* the position codec used for paginated documents (the injected capture and
  restore functions),
* the paginated-document detector (`detectPDF`, one copy in the capture
  injection and one in the restore injection),
* the scrollable-region detector (`findMainScrollableElement`).

JavaScript numbers that can only be non-negative integers in the embedded
fragment are modelled as `Nat`; DOM geometry values, which may be fractional,
are modelled as `ℚ`; runtime message fields that may be absent are `Option`s.
The asynchronous storage adapter is modelled as an explicit state
(`String → Option StoredVal`) threaded through the handler, together with a
trace of the storage operations the handler performs.
-/

/-! ## Position codec

The capture injection combines a 1-based page number and an intra-page offset
as `(page - 1) * 10000 + scrollTop`; the restore injection recovers them as
`Math.floor(pos / 10000) + 1` and `pos % 10000`. -/

/-- `(page - 1) * 10000 + scrollTop` from the capture injection. -/
def encodePosition (page offset : Nat) : Nat :=
  (page - 1) * 10000 + offset

/-- `(Math.floor(pos / 10000) + 1, pos % 10000)` from the restore injection. -/
def decodePosition (value : Nat) : Nat × Nat :=
  (value / 10000 + 1, value % 10000)

/-! ## Bookmark store and message dispatcher (`src/lib/background-logic.ts`) -/

/-- A runtime JavaScript number as it can appear in `data.scrollPosition`:
`NaN` (e.g. `Number` of a missing or non-numeric payload) or a finite value,
modelled as a rational. -/
inductive JsNum where
  | nan : JsNum
  | num (v : ℚ) : JsNum
deriving DecidableEq

/-- `Number(data.scrollPosition) || 0` (background-logic.ts line 71): a
missing field coerces to `NaN`, and `NaN` and `0` are falsy, so both yield
`0`; any other finite number passes through unchanged. -/
def coerceScroll : Option JsNum → ℚ
  | none => 0
  | some JsNum.nan => 0
  | some (JsNum.num v) => if v = 0 then 0 else v

/-- `data.name || 'Untitled'` (line 70): a missing or empty name falls back to
`"Untitled"`. -/
def nameOrUntitled : Option String → String
  | none => "Untitled"
  | some s => if s = "" then "Untitled" else s

/-- JavaScript falsiness of an optional string field (`!url`): the field is
absent or the empty string. -/
def strFalsy : Option String → Bool
  | none => true
  | some s => s == ""

/-- The bookmark record built by the save path. -/
structure Bookmark where
  id : String
  name : String
  scrollPosition : ℚ
  url : String
  timestamp : String
deriving DecidableEq

/-- A value found in storage under a bookmarks key: an array of bookmark
records, or some other (corrupt) value that `Array.isArray` rejects. -/
inductive StoredVal where
  | arr (l : List Bookmark) : StoredVal
  | other : StoredVal
deriving DecidableEq

/-- The external key-value storage adapter, as a partial map. -/
def Storage : Type := String → Option StoredVal

def emptyStorage : Storage := fun _ => none

def setStorage (σ : Storage) (key : String) (v : StoredVal) : Storage :=
  fun k => if k = key then some v else σ k

/-- `storageKey` (line 33): the literal prefix `"bookmarks:"` followed by the
exact URL. -/
def storageKey (url : String) : String :=
  "bookmarks:" ++ url

/-- `getBookmarksForUrl` (lines 45-49): defensive decode, a missing key or a
non-array stored value degrades to the empty list. -/
def getBookmarksForUrl (σ : Storage) (url : String) : List Bookmark :=
  match σ (storageKey url) with
  | some (StoredVal.arr l) => l
  | _ => []

/-- The `data` payload of a `saveBookmark` message; every field is optional at
runtime. -/
structure SaveData where
  name : Option String := none
  scrollPosition : Option JsNum := none
  url : Option String := none
deriving DecidableEq

/-- A runtime message as the dispatcher receives it: a bag of optional fields
(the TypeScript union types do not exist at runtime). A missing `action`
models both a null message and a message without an action. -/
structure RawMessage where
  action : Option String := none
  data : Option SaveData := none
  url : Option String := none
  bookmarkId : Option String := none
  tabId : Option Int := none
deriving DecidableEq

/-- The response object of `handleMessage`; absent fields are `none`. -/
structure Response where
  success : Option Bool := none
  error : Option String := none
  bookmarks : Option (List Bookmark) := none
  bookmark : Option Bookmark := none
deriving DecidableEq

/-- One storage-adapter call, recorded in the trace of a handler run. -/
inductive StorageOp where
  | get (key : String) : StorageOp
  | set (key : String) (v : StoredVal) : StorageOp
deriving DecidableEq

/-- The ambient effects used by the save path: the value `generateId()`
returns (line 69) and the value `new Date().toISOString()` returns
(line 73), supplied by the runtime environment. -/
structure SaveEnv where
  freshId : String
  nowIso : String

/-- `handleMessage` (background-logic.ts lines 51-105), with the storage
adapter made explicit: the result is the response, the storage state after
the call, and the trace of storage operations performed, in order. -/
def handleMessage (msg : RawMessage) (env : SaveEnv) (σ : Storage) :
    Response × Storage × List StorageOp :=
  match msg.action with
  | none => ({ success := some false, error := some "Missing action" }, σ, [])
  | some a =>
    if a = "" then
      ({ success := some false, error := some "Missing action" }, σ, [])
    else if a = "saveBookmark" then
      let data := msg.data.getD {}
      match data.url with
      | none => ({ success := some false, error := some "Missing url" }, σ, [])
      | some u =>
        if u = "" then
          ({ success := some false, error := some "Missing url" }, σ, [])
        else
          let old := getBookmarksForUrl σ u
          let b : Bookmark :=
            { id := env.freshId
              name := nameOrUntitled data.name
              scrollPosition := coerceScroll data.scrollPosition
              url := u
              timestamp := env.nowIso }
          ({ success := some true, bookmark := some b },
            setStorage σ (storageKey u) (StoredVal.arr (old ++ [b])),
            [StorageOp.get (storageKey u),
             StorageOp.set (storageKey u) (StoredVal.arr (old ++ [b]))])
    else if a = "getBookmarks" then
      match msg.url with
      | none => ({ bookmarks := some [] }, σ, [])
      | some u =>
        if u = "" then
          ({ bookmarks := some [] }, σ, [])
        else
          ({ bookmarks := some (getBookmarksForUrl σ u) }, σ,
            [StorageOp.get (storageKey u)])
    else if a = "deleteBookmark" then
      match msg.url, msg.bookmarkId with
      | some u, some bid =>
        if u = "" ∨ bid = "" then
          ({ success := some false, error := some "Missing url or bookmarkId" }, σ, [])
        else
          let next := (getBookmarksForUrl σ u).filter (fun r => r.id != bid)
          ({ success := some true },
            setStorage σ (storageKey u) (StoredVal.arr next),
            [StorageOp.get (storageKey u),
             StorageOp.set (storageKey u) (StoredVal.arr next)])
      | _, _ =>
        ({ success := some false, error := some "Missing url or bookmarkId" }, σ, [])
    else
      ({ success := some false, error := some "Unknown action" }, σ, [])

/-! ## Paginated-document detector

The capture injection and the restore injection each carry their own copy of
`detectPDF`. Both read only the page URL, the presence of a handful of DOM
elements, and one script global; a document state records exactly those
observations. -/

/-- `strHasPrefixChars pat s` : the character list `pat` is an initial
segment of `s` (the model of `String.prototype.startsWith`). -/
def strHasPrefixChars : List Char → List Char → Bool
  | [], _ => true
  | _ :: _, [] => false
  | p :: ps, c :: cs => p == c && strHasPrefixChars ps cs

/-- `strContainsChars pat s` : `pat` occurs as a contiguous run inside `s`
(the model of `String.prototype.includes`). -/
def strContainsChars (pat : List Char) : List Char → Bool
  | [] => pat.isEmpty
  | c :: cs => strHasPrefixChars pat (c :: cs) || strContainsChars pat cs

/-- `s.includes(pat)` on strings. -/
def strContains (s pat : String) : Bool :=
  strContainsChars pat.data s.data

/-- `s.startsWith(pat)` on strings. -/
def strStartsWith (s pat : String) : Bool :=
  strHasPrefixChars pat.data s.data

/-- The observations the two `detectPDF` copies make of the page: the URL and
the presence of each probed element or global. -/
structure DocState where
  href : String
  embedPdf : Bool
  embedChromePdf : Bool
  objectPdf : Bool
  pluginElem : Bool
  iframePdfSrc : Bool
  pdfViewerApplication : Bool
  pdfViewerClass : Bool
  viewerIdElem : Bool
deriving DecidableEq

/-- `urlCheck` of the capture-side `detectPDF`: the URL contains `".pdf"` or
`"application/pdf"` (identical to `urlIsPDF` on the restore side). -/
def urlCheck (d : DocState) : Bool :=
  strContains d.href ".pdf" || strContains d.href "application/pdf"

/-- `chromeExtensionCheck` of the capture-side `detectPDF`: the URL starts
with `"chrome-extension://"` and contains `"pdf"`. -/
def chromeExtensionCheck (d : DocState) : Bool :=
  strStartsWith d.href "chrome-extension://" && strContains d.href "pdf"

/-- The `checks` object of the capture-side `detectPDF`, in insertion order:
urlCheck, embedCheck, chromePdfCheck, objectCheck, pluginCheck, iframeCheck,
pdfjsGlobal, pdfjsViewer, viewerId, chromeExtension. -/
def captureChecks (d : DocState) : List Bool :=
  [urlCheck d, d.embedPdf, d.embedChromePdf, d.objectPdf, d.pluginElem,
   d.iframePdfSrc, d.pdfViewerApplication, d.pdfViewerClass, d.viewerIdElem,
   chromeExtensionCheck d]

/-- The capture-side `detectPDF`:
`Object.values(checks).some(v => v === true)`. -/
def detectPDFCapture (d : DocState) : Bool :=
  (captureChecks d).any (fun v => v == true)

/-- The restore-side `detectPDF`: `!!(pdfViewer || urlIsPDF || hasPDFJS)`,
where `pdfViewer` chains the five element probes, `urlIsPDF` the two URL
probes, and `hasPDFJS` the script global and the two viewer containers. -/
def detectPDFRestore (d : DocState) : Bool :=
  (d.embedPdf || d.embedChromePdf || d.objectPdf || d.pluginElem || d.iframePdfSrc)
  || (strContains d.href ".pdf" || strContains d.href "application/pdf")
  || (d.pdfViewerApplication || d.pdfViewerClass || d.viewerIdElem)

/-! ## Scrollable-region detector (`findMainScrollableElement`)

Both injections carry the same copy of this function. The model records, per
element returned by `querySelectorAll('*')`, the fields the function reads;
geometry values are rationals since DOM rectangles may be fractional. -/

/-- One element as seen by `findMainScrollableElement`. -/
structure ScrollElem where
  nodeType : Nat
  overflowY : String
  overflowX : String
  scrollHeight : ℚ
  clientHeight : ℚ
  scrollTop : ℚ
  rectWidth : ℚ
  rectHeight : ℚ
deriving DecidableEq

/-- The page as seen by `findMainScrollableElement`: the resolved window
scroll metrics (after the `||` fallback chains), the viewport size, and the
document's elements in document order. -/
structure PageState where
  windowScrollY : ℚ
  windowScrollHeight : ℚ
  windowClientHeight : ℚ
  innerWidth : ℚ
  innerHeight : ℚ
  elements : List ScrollElem
deriving DecidableEq

/-- The candidate test of the element loop: an element node whose computed
overflow is `auto` or `scroll` on some axis and whose scroll height exceeds
its client height. -/
def isScrollableCandidate (e : ScrollElem) : Bool :=
  (e.nodeType == 1)
  && (e.overflowY == "auto" || e.overflowY == "scroll"
      || e.overflowX == "auto" || e.overflowX == "scroll")
  && (e.clientHeight < e.scrollHeight)

/-- The candidates collected by the element loop, in document order. -/
def scorableCandidates (s : PageState) : List ScrollElem :=
  s.elements.filter isScrollableCandidate

/-- `Math.min` on two finite numbers. -/
def ratMin (a b : ℚ) : ℚ :=
  if a ≤ b then a else b

/-- The scoring loop: four additive capped components — scrollable area
(`Math.min(100, area/100)`), non-zero current scroll
(`Math.min(200, scrollTop/10)`), rendered area (`Math.min(100, w*h/10000)`),
and viewport share (`Math.min(50, w*h/viewport*100)`). -/
def candidateScore (s : PageState) (e : ScrollElem) : ℚ :=
  ratMin 100 ((e.scrollHeight - e.clientHeight) / 100)
  + (if 0 < e.scrollTop then ratMin 200 (e.scrollTop / 10) else 0)
  + ratMin 100 ((e.rectWidth * e.rectHeight) / 10000)
  + ratMin 50 ((e.rectWidth * e.rectHeight) / (s.innerWidth * s.innerHeight) * 100)

/-- The element left at index 0 after the stable descending sort by score:
the first candidate, in document order, attaining the maximal score. The
accumulator is replaced only when a strictly higher score appears, exactly as
a stable sort keeps the earlier of two tied elements first. -/
def bestCandidate (s : PageState) : List ScrollElem → ScrollElem → ScrollElem
  | [], acc => acc
  | e :: rest, acc =>
    bestCandidate s rest (if candidateScore s acc < candidateScore s e then e else acc)

/-- `findMainScrollableElement`: window-scroll short-circuit, candidate
collection, scoring, and the `score > 50` acceptance threshold; `none` means
"use window scroll". -/
def findMainScrollableElement (s : PageState) : Option ScrollElem :=
  if 50 < s.windowScrollY ∧ s.windowClientHeight < s.windowScrollHeight then
    none
  else
    match scorableCandidates s with
    | [] => none
    | c :: cs =>
      if 50 < candidateScore s (bestCandidate s cs c) then
        some (bestCandidate s cs c)
      else
        none

/-! ## The save/save interleaving model

`handleMessage`'s save path suspends twice, at the storage `get` and at the
storage `set`; a concurrent pair of saves for the same URL therefore
interleaves two atomic reads and two atomic writes. -/

/-- One atomic step of one of two concurrent save requests. -/
inductive SaveStep where
  | readFst : SaveStep
  | writeFst : SaveStep
  | readSnd : SaveStep
  | writeSnd : SaveStep

/-- The joint state of two in-flight saves: the storage and each request's
local copy of the list it read (absent until its read step runs). -/
structure RaceState where
  store : Storage
  readFst : Option (List Bookmark)
  readSnd : Option (List Bookmark)

/-- Execute one atomic step of the two-save interleaving for `url`: a read
records the current stored list, a write persists that recorded list with the
request's own bookmark appended (a write before its read is a no-op; no
schedule of interest contains one). -/
def runSaveStep (url : String) (b1 b2 : Bookmark) (s : RaceState) :
    SaveStep → RaceState
  | SaveStep.readFst => { s with readFst := some (getBookmarksForUrl s.store url) }
  | SaveStep.readSnd => { s with readSnd := some (getBookmarksForUrl s.store url) }
  | SaveStep.writeFst =>
    match s.readFst with
    | some l => { s with store := setStorage s.store (storageKey url) (StoredVal.arr (l ++ [b1])) }
    | none => s
  | SaveStep.writeSnd =>
    match s.readSnd with
    | some l => { s with store := setStorage s.store (storageKey url) (StoredVal.arr (l ++ [b2])) }
    | none => s

/-- Execute a whole interleaving (a sequence of atomic steps). -/
def runSchedule (url : String) (b1 b2 : Bookmark) (steps : List SaveStep)
    (s : RaceState) : RaceState :=
  steps.foldl (runSaveStep url b1 b2) s

/-! ## Helper lemmas -/

/-- Reading a URL's list right after writing it returns the written list. -/
theorem getBookmarksForUrl_setStorage (σ : Storage) (url : String)
    (l : List Bookmark) :
    getBookmarksForUrl (setStorage σ (storageKey url) (StoredVal.arr l)) url = l := by
  simp [getBookmarksForUrl, setStorage]

/-! ## Claims -/

/-- C2: for every `page ≥ 1` and `0 ≤ offset < 10000`, the decoded encoded
position is the original pair `(page, offset)`; for any offset the decode
yields `(page + offset / 10000, offset % 10000)`, attributing the excess
offset to the page number. -/
theorem decodePosition_encodePosition (page offset : Nat) (hpage : 1 ≤ page) :
    (offset < 10000 →
      decodePosition (encodePosition page offset) = (page, offset))
    ∧ decodePosition (encodePosition page offset)
        = (page + offset / 10000, offset % 10000) := by
  refine ⟨fun h => ?_, ?_⟩ <;>
  · simp only [encodePosition, decodePosition, Prod.mk.injEq]
    omega

/-- Witness for C2 at `page = 3`, `offset = 250`. -/
theorem decodePosition_encodePosition_witness :
    decodePosition (encodePosition 3 250) = (3, 250) :=
  (decodePosition_encodePosition 3 250 (by decide)).1 (by decide)

/-- C10: in the interleaving read₁, read₂, write₁, write₂ of two concurrent
saves for the same URL, both requests read the pre-update list, the final
stored list is the pre-update list with only the later writer's record
appended, and its length is strictly below the pre-update length plus 2 (the
earlier writer's record is lost). -/
theorem concurrent_saves_lost_update (σ : Storage) (url : String)
    (b1 b2 : Bookmark) :
    getBookmarksForUrl (runSchedule url b1 b2
        [SaveStep.readFst, SaveStep.readSnd, SaveStep.writeFst, SaveStep.writeSnd]
        { store := σ, readFst := none, readSnd := none }).store url
      = getBookmarksForUrl σ url ++ [b2]
    ∧ (getBookmarksForUrl (runSchedule url b1 b2
        [SaveStep.readFst, SaveStep.readSnd, SaveStep.writeFst, SaveStep.writeSnd]
        { store := σ, readFst := none, readSnd := none }).store url).length
      < (getBookmarksForUrl σ url).length + 2 := by
  have hrun : (runSchedule url b1 b2
      [SaveStep.readFst, SaveStep.readSnd, SaveStep.writeFst, SaveStep.writeSnd]
      { store := σ, readFst := none, readSnd := none }).store
      = setStorage
          (setStorage σ (storageKey url)
            (StoredVal.arr (getBookmarksForUrl σ url ++ [b1])))
          (storageKey url)
          (StoredVal.arr (getBookmarksForUrl σ url ++ [b2])) := by
    simp [runSchedule, runSaveStep, List.foldl]
  rw [hrun, getBookmarksForUrl_setStorage]
  refine ⟨rfl, ?_⟩
  simp

/-- C1: a `saveBookmark` request with a non-empty url appends exactly one new
record — carrying that url, the given name (`"Untitled"` when missing or
empty), the given numeric `scrollPosition`, the freshly generated id and the
ISO clock string — to the list stored under `"bookmarks:" + url`, persists
the updated list, returns `{success: true, bookmark}` with exactly that
record, and a subsequent `getBookmarks` for the same url returns a list
containing it. -/
theorem handleMessage_saveBookmark (σ : Storage) (env env2 : SaveEnv)
    (msg : RawMessage) (data : SaveData) (u : String) (b : Bookmark)
    (hact : msg.action = some "saveBookmark") (hdata : msg.data = some data)
    (hurl : data.url = some u) (hu : u ≠ "")
    (hb : b = { id := env.freshId, name := nameOrUntitled data.name,
                scrollPosition := coerceScroll data.scrollPosition,
                url := u, timestamp := env.nowIso }) :
    (handleMessage msg env σ).1 = { success := some true, bookmark := some b }
    ∧ (handleMessage msg env σ).2.1 (storageKey u)
        = some (StoredVal.arr (getBookmarksForUrl σ u ++ [b]))
    ∧ getBookmarksForUrl (handleMessage msg env σ).2.1 u
        = getBookmarksForUrl σ u ++ [b]
    ∧ b.id = env.freshId ∧ b.timestamp = env.nowIso ∧ b.url = u
    ∧ (∀ q : ℚ, data.scrollPosition = some (JsNum.num q) → b.scrollPosition = q)
    ∧ ((data.name = none ∨ data.name = some "") → b.name = "Untitled")
    ∧ (∀ n : String, data.name = some n → n ≠ "" → b.name = n)
    ∧ (handleMessage { action := some "getBookmarks", url := some u } env2
          (handleMessage msg env σ).2.1).1
        = { bookmarks := some (getBookmarksForUrl σ u ++ [b]) }
    ∧ b ∈ getBookmarksForUrl (handleMessage msg env σ).2.1 u := by
  subst hb
  have hmain : handleMessage msg env σ
      = ({ success := some true,
           bookmark := some { id := env.freshId, name := nameOrUntitled data.name,
                              scrollPosition := coerceScroll data.scrollPosition,
                              url := u, timestamp := env.nowIso } },
         setStorage σ (storageKey u)
           (StoredVal.arr (getBookmarksForUrl σ u
             ++ [{ id := env.freshId, name := nameOrUntitled data.name,
                   scrollPosition := coerceScroll data.scrollPosition,
                   url := u, timestamp := env.nowIso }])),
         [StorageOp.get (storageKey u),
          StorageOp.set (storageKey u)
            (StoredVal.arr (getBookmarksForUrl σ u
              ++ [{ id := env.freshId, name := nameOrUntitled data.name,
                    scrollPosition := coerceScroll data.scrollPosition,
                    url := u, timestamp := env.nowIso }]))]) := by
    simp [handleMessage, hact, hdata, hurl, hu]
  rw [hmain]
  refine ⟨rfl, ?_, ?_, rfl, rfl, rfl, ?_, ?_, ?_, ?_, ?_⟩
  · simp [setStorage]
  · exact getBookmarksForUrl_setStorage ..
  · intro q hq
    show coerceScroll data.scrollPosition = q
    rw [hq]
    by_cases h0 : q = 0
    · simp [coerceScroll, h0]
    · simp [coerceScroll, h0]
  · rintro (h | h) <;> simp [nameOrUntitled, h]
  · intro n hn hne
    show nameOrUntitled data.name = n
    simp [nameOrUntitled, hn, hne]
  · simp [handleMessage, hu, getBookmarksForUrl_setStorage]
  · rw [getBookmarksForUrl_setStorage]
    exact List.mem_append_right _ (List.mem_singleton.mpr rfl)

/-- A fixed environment for concrete runs. -/
def anyEnv : SaveEnv :=
  { freshId := "fresh-id", nowIso := "2024-03-01T00:00:00.000Z" }

def c1Data : SaveData :=
  { name := some "Intro", scrollPosition := some (JsNum.num 1234),
    url := some "https://ex.com/a" }

def c1Msg : RawMessage :=
  { action := some "saveBookmark", data := some c1Data }

def c1Bookmark : Bookmark :=
  { id := "fresh-id", name := "Intro", scrollPosition := 1234,
    url := "https://ex.com/a", timestamp := "2024-03-01T00:00:00.000Z" }

/-- Witness for C1: the literal end-to-end example of the spec. -/
theorem handleMessage_saveBookmark_witness :
    (handleMessage c1Msg anyEnv emptyStorage).1
      = { success := some true, bookmark := some c1Bookmark }
    ∧ getBookmarksForUrl (handleMessage c1Msg anyEnv emptyStorage).2.1
        "https://ex.com/a" = [c1Bookmark] := by
  have h := handleMessage_saveBookmark emptyStorage anyEnv anyEnv c1Msg c1Data
    "https://ex.com/a" c1Bookmark rfl rfl rfl (by decide) (by decide)
  refine ⟨h.1, ?_⟩
  rw [h.2.2.1]
  simp [getBookmarksForUrl, emptyStorage]

/-- C3: a `deleteBookmark` request with non-empty url and bookmarkId persists
the previous list with exactly the records whose id equals the bookmarkId
removed, preserving the relative order of the rest, and returns
`{success: true}`; when no stored record has that id the persisted list
equals the previous list and the response is still `{success: true}`. -/
theorem handleMessage_deleteBookmark (σ : Storage) (env : SaveEnv)
    (msg : RawMessage) (u bid : String)
    (hact : msg.action = some "deleteBookmark") (hurl : msg.url = some u)
    (hbid : msg.bookmarkId = some bid) (hu : u ≠ "") (hnb : bid ≠ "") :
    (handleMessage msg env σ).1 = { success := some true }
    ∧ (handleMessage msg env σ).2.1 (storageKey u)
        = some (StoredVal.arr
            ((getBookmarksForUrl σ u).filter (fun r => r.id != bid)))
    ∧ getBookmarksForUrl (handleMessage msg env σ).2.1 u
        = (getBookmarksForUrl σ u).filter (fun r => r.id != bid)
    ∧ List.Sublist (getBookmarksForUrl (handleMessage msg env σ).2.1 u)
        (getBookmarksForUrl σ u)
    ∧ (∀ r : Bookmark, r ∈ getBookmarksForUrl (handleMessage msg env σ).2.1 u
        ↔ r ∈ getBookmarksForUrl σ u ∧ r.id ≠ bid)
    ∧ ((∀ r ∈ getBookmarksForUrl σ u, r.id ≠ bid) →
        getBookmarksForUrl (handleMessage msg env σ).2.1 u
          = getBookmarksForUrl σ u) := by
  have hmain : handleMessage msg env σ
      = ({ success := some true },
         setStorage σ (storageKey u)
           (StoredVal.arr ((getBookmarksForUrl σ u).filter (fun r => r.id != bid))),
         [StorageOp.get (storageKey u),
          StorageOp.set (storageKey u)
            (StoredVal.arr ((getBookmarksForUrl σ u).filter (fun r => r.id != bid)))]) := by
    simp [handleMessage, hact, hurl, hbid, hu, hnb]
  rw [hmain]
  have hnext : getBookmarksForUrl
      (setStorage σ (storageKey u)
        (StoredVal.arr ((getBookmarksForUrl σ u).filter (fun r => r.id != bid)))) u
      = (getBookmarksForUrl σ u).filter (fun r => r.id != bid) :=
    getBookmarksForUrl_setStorage ..
  refine ⟨rfl, ?_, hnext, ?_, ?_, ?_⟩
  · simp [setStorage]
  · rw [hnext]
    exact List.filter_sublist _
  · intro r
    rw [hnext]
    simp [List.mem_filter, bne_iff_ne]
  · intro hall
    rw [hnext]
    apply List.filter_eq_self.mpr
    intro r hr
    simpa [bne_iff_ne] using hall r hr

def c3BookmarkA : Bookmark :=
  { id := "1", name := "A", scrollPosition := 10, url := "https://ex.com/b",
    timestamp := "2024-01-01T00:00:00.000Z" }

def c3BookmarkB : Bookmark :=
  { id := "2", name := "B", scrollPosition := 20, url := "https://ex.com/b",
    timestamp := "2024-01-02T00:00:00.000Z" }

def c3BookmarkC : Bookmark :=
  { id := "3", name := "C", scrollPosition := 30, url := "https://ex.com/b",
    timestamp := "2024-01-03T00:00:00.000Z" }

def c3Store : Storage :=
  setStorage emptyStorage (storageKey "https://ex.com/b")
    (StoredVal.arr [c3BookmarkA, c3BookmarkB, c3BookmarkC])

def c3Msg : RawMessage :=
  { action := some "deleteBookmark", url := some "https://ex.com/b",
    bookmarkId := some "2" }

/-- Witness for C3: deleting the middle of three bookmarks keeps the other
two in order. -/
theorem handleMessage_deleteBookmark_witness :
    (handleMessage c3Msg anyEnv c3Store).1 = { success := some true }
    ∧ getBookmarksForUrl (handleMessage c3Msg anyEnv c3Store).2.1
        "https://ex.com/b" = [c3BookmarkA, c3BookmarkC] := by
  have h := handleMessage_deleteBookmark c3Store anyEnv c3Msg "https://ex.com/b"
    "2" rfl rfl rfl (by decide) (by decide)
  refine ⟨h.1, ?_⟩
  rw [h.2.2.1]
  decide

/-- C4: a `getBookmarks` request always answers `{bookmarks: L}` with `L` the
array stored under `"bookmarks:" + url` — never an error, leaving storage
unchanged — and `L = []` whenever the url is missing or empty, the key is
absent, or the stored value is not an array. -/
theorem handleMessage_getBookmarks (σ : Storage) (env : SaveEnv)
    (msg : RawMessage) (hact : msg.action = some "getBookmarks") :
    (∃ L : List Bookmark,
        (handleMessage msg env σ).1 = { bookmarks := some L })
    ∧ (handleMessage msg env σ).1.success = none
    ∧ (handleMessage msg env σ).1.error = none
    ∧ (handleMessage msg env σ).2.1 = σ
    ∧ (strFalsy msg.url = true →
        (handleMessage msg env σ).1 = { bookmarks := some [] })
    ∧ (∀ u : String, msg.url = some u → u ≠ "" →
        (handleMessage msg env σ).1
            = { bookmarks := some (getBookmarksForUrl σ u) }
        ∧ (σ (storageKey u) = none →
            (handleMessage msg env σ).1 = { bookmarks := some [] })
        ∧ (σ (storageKey u) = some StoredVal.other →
            (handleMessage msg env σ).1 = { bookmarks := some [] })) := by
  rcases hmu : msg.url with _ | u
  · have hmain : handleMessage msg env σ = ({ bookmarks := some [] }, σ, []) := by
      simp [handleMessage, hact, hmu]
    rw [hmain]
    refine ⟨⟨[], rfl⟩, rfl, rfl, rfl, fun _ => rfl, ?_⟩
    intro u hu
    exact Option.noConfusion hu
  · by_cases hu : u = ""
    · subst hu
      have hmain : handleMessage msg env σ = ({ bookmarks := some [] }, σ, []) := by
        simp [handleMessage, hact, hmu]
      rw [hmain]
      refine ⟨⟨[], rfl⟩, rfl, rfl, rfl, fun _ => rfl, ?_⟩
      intro u' hu' hne
      exact absurd (Option.some_injective _ hu').symm hne
    · have hmain : handleMessage msg env σ
          = ({ bookmarks := some (getBookmarksForUrl σ u) }, σ,
             [StorageOp.get (storageKey u)]) := by
        simp [handleMessage, hact, hmu, hu]
      rw [hmain]
      refine ⟨⟨getBookmarksForUrl σ u, rfl⟩, rfl, rfl, rfl, ?_, ?_⟩
      · intro hf
        simp [strFalsy, hu] at hf
      · intro u' hu' hne
        obtain rfl : u = u' := Option.some_injective _ hu'
        refine ⟨rfl, ?_, ?_⟩
        · intro hnone
          simp [getBookmarksForUrl, hnone]
        · intro hother
          simp [getBookmarksForUrl, hother]

def c4Store : Storage :=
  setStorage emptyStorage (storageKey "https://ex.com/c") StoredVal.other

/-- Witness for C4: a stored non-array value degrades to the empty list. -/
theorem handleMessage_getBookmarks_witness :
    (handleMessage { action := some "getBookmarks", url := some "https://ex.com/c" }
        anyEnv c4Store).1 = { bookmarks := some [] } :=
  (((handleMessage_getBookmarks c4Store anyEnv
      { action := some "getBookmarks", url := some "https://ex.com/c" }
      rfl).2.2.2.2.2 "https://ex.com/c" rfl (by decide)).2.2 (by decide))

/-- C5: a missing or empty action, a `saveBookmark` without a usable url, a
`deleteBookmark` without url or bookmarkId, and an unknown action each yield
`{success: false, error: <message>}` synchronously, leaving storage unchanged
and performing no storage operation at all. -/
theorem handleMessage_validation (σ : Storage) (env : SaveEnv)
    (msg : RawMessage) :
    ((msg.action = none ∨ msg.action = some "") →
      handleMessage msg env σ
        = ({ success := some false, error := some "Missing action" }, σ, []))
    ∧ (msg.action = some "saveBookmark" →
        strFalsy (msg.data.getD {}).url = true →
      handleMessage msg env σ
        = ({ success := some false, error := some "Missing url" }, σ, []))
    ∧ (msg.action = some "deleteBookmark" →
        (strFalsy msg.url || strFalsy msg.bookmarkId) = true →
      handleMessage msg env σ
        = ({ success := some false,
             error := some "Missing url or bookmarkId" }, σ, []))
    ∧ (∀ a : String, msg.action = some a → a ≠ "" → a ≠ "saveBookmark" →
        a ≠ "getBookmarks" → a ≠ "deleteBookmark" →
      handleMessage msg env σ
        = ({ success := some false, error := some "Unknown action" }, σ, [])) := by
  refine ⟨?_, ?_, ?_, ?_⟩
  · rintro (h | h) <;> simp [handleMessage, h]
  · intro ha hf
    rcases hd : (msg.data.getD {}).url with _ | u
    · simp [handleMessage, ha, hd]
    · rw [hd] at hf
      simp only [strFalsy, beq_iff_eq] at hf
      subst hf
      simp [handleMessage, ha, hd]
  · intro ha hf
    rcases hu : msg.url with _ | u <;> rcases hb : msg.bookmarkId with _ | b
    · simp [handleMessage, ha, hu, hb]
    · simp [handleMessage, ha, hu, hb]
    · simp [handleMessage, ha, hu, hb]
    · rw [hu, hb] at hf
      simp only [strFalsy, Bool.or_eq_true, beq_iff_eq] at hf
      simp [handleMessage, ha, hu, hb, if_pos hf]
  · intro a ha h1 h2 h3 h4
    simp [handleMessage, ha, h1, h2, h3, h4]

/-- Witness for C5: an unknown action is rejected without any storage
operation. -/
theorem handleMessage_validation_witness :
    handleMessage { action := some "frobnicate" } anyEnv emptyStorage
      = ({ success := some false, error := some "Unknown action" },
         emptyStorage, []) :=
  (handleMessage_validation emptyStorage anyEnv
      { action := some "frobnicate" }).2.2.2 "frobnicate" rfl
    (by decide) (by decide) (by decide) (by decide)

def c6Data : SaveData :=
  { name := some "Neg", scrollPosition := some (JsNum.num (-5)),
    url := some "https://ex.com/d" }

def c6Msg : RawMessage :=
  { action := some "saveBookmark", data := some c6Data }

/-- Counterexample to C6: a request whose `scrollPosition` is `-5` is saved
and persisted with `scrollPosition = -5`, which is not a non-negative
integer — `Number(x) || 0` passes every non-zero finite number through
unchanged. -/
theorem saveBookmark_negative_scroll_counterexample :
    ((handleMessage c6Msg anyEnv emptyStorage).1.bookmark.map
        Bookmark.scrollPosition) = some (-5)
    ∧ ((getBookmarksForUrl (handleMessage c6Msg anyEnv emptyStorage).2.1
        "https://ex.com/d").map Bookmark.scrollPosition) = [(-5 : ℚ)]
    ∧ ¬ (0 : ℚ) ≤ -5 := by
  decide

/-- C6 (amended): the saved record's `scrollPosition` is
`Number(data.scrollPosition) || 0`: it is `0` — hence a non-negative
integer — when the field is missing or `NaN`, it is a non-negative integer
whenever the incoming value is one, but any other non-zero finite value
(negative or fractional included) is stored unchanged. -/
theorem saveBookmark_scrollPosition_coercion (σ : Storage) (env : SaveEnv)
    (msg : RawMessage) (data : SaveData) (u : String)
    (hact : msg.action = some "saveBookmark") (hdata : msg.data = some data)
    (hurl : data.url = some u) (hu : u ≠ "") :
    ((handleMessage msg env σ).1.bookmark.map Bookmark.scrollPosition)
        = some (coerceScroll data.scrollPosition)
    ∧ ((data.scrollPosition = none ∨ data.scrollPosition = some JsNum.nan) →
        coerceScroll data.scrollPosition = 0)
    ∧ (∀ q : ℚ, data.scrollPosition = some (JsNum.num q) → 0 ≤ q →
        q.den = 1 →
        0 ≤ coerceScroll data.scrollPosition
        ∧ (coerceScroll data.scrollPosition).den = 1)
    ∧ (∀ q : ℚ, data.scrollPosition = some (JsNum.num q) → q ≠ 0 →
        coerceScroll data.scrollPosition = q) := by
  refine ⟨?_, ?_, ?_, ?_⟩
  · simp [handleMessage, hact, hdata, hurl, hu]
  · rintro (h | h) <;> simp [coerceScroll, h]
  · intro q hq hq0 hqden
    rw [hq]
    simp only [coerceScroll]
    split_ifs with h
    · norm_num
    · exact ⟨hq0, hqden⟩
  · intro q hq hne
    rw [hq]
    simp [coerceScroll, hne]

def c6wData : SaveData :=
  { name := some "NaNCase", scrollPosition := some JsNum.nan,
    url := some "https://ex.com/d" }

def c6wMsg : RawMessage :=
  { action := some "saveBookmark", data := some c6wData }

/-- Witness for the amended C6: a `NaN` scroll position is stored as `0`. -/
theorem saveBookmark_scrollPosition_coercion_witness :
    ((handleMessage c6wMsg anyEnv emptyStorage).1.bookmark.map
        Bookmark.scrollPosition) = some 0 := by
  have h := saveBookmark_scrollPosition_coercion emptyStorage anyEnv c6wMsg
    c6wData "https://ex.com/d" rfl rfl rfl (by decide)
  rw [h.1]
  rfl

/-- The element kept at index 0 by the scoring fold belongs to the candidate
list it was computed from. -/
theorem bestCandidate_mem (s : PageState) (l : List ScrollElem)
    (acc : ScrollElem) : bestCandidate s l acc ∈ acc :: l := by
  induction l generalizing acc with
  | nil => simp [bestCandidate]
  | cons x rest ih =>
    simp only [bestCandidate]
    have h := ih (if candidateScore s acc < candidateScore s x then x else acc)
    rcases List.mem_cons.mp h with h' | h'
    · rw [h']
      split_ifs <;> simp
    · simp [h']

/-- The element kept at index 0 by the scoring fold attains the maximal score
among the accumulator and the remaining candidates. -/
theorem bestCandidate_le (s : PageState) (l : List ScrollElem)
    (acc : ScrollElem) :
    ∀ e ∈ acc :: l,
      candidateScore s e ≤ candidateScore s (bestCandidate s l acc) := by
  induction l generalizing acc with
  | nil =>
    intro e he
    rw [List.mem_singleton.mp he]
    simp [bestCandidate]
  | cons x rest ih =>
    intro e he
    simp only [bestCandidate]
    have hacc : candidateScore s acc
        ≤ candidateScore s (if candidateScore s acc < candidateScore s x
            then x else acc) := by
      split_ifs with h
      · exact le_of_lt h
      · exact le_refl _
    have hx : candidateScore s x
        ≤ candidateScore s (if candidateScore s acc < candidateScore s x
            then x else acc) := by
      split_ifs with h
      · exact le_refl _
      · exact le_of_not_lt h
    have hself := ih (if candidateScore s acc < candidateScore s x then x else acc)
      _ (List.mem_cons_self _ _)
    rcases List.mem_cons.mp he with rfl | he'
    · exact le_trans hacc hself
    · rcases List.mem_cons.mp he' with rfl | he''
      · exact le_trans hx hself
      · exact ih _ e (List.mem_cons_of_mem _ he'')

/-- `Math.min(a, b)` never exceeds its first argument. -/
theorem ratMin_le_left (a b : ℚ) : ratMin a b ≤ a := by
  unfold ratMin
  split_ifs with h
  · exact le_refl a
  · exact le_of_not_le h

/-- Each of the four score components is capped, so a candidate's score never
exceeds 100 + 200 + 100 + 50 = 450. -/
theorem candidateScore_le_450 (s : PageState) (e : ScrollElem) :
    candidateScore s e ≤ 450 := by
  unfold candidateScore
  have h1 : ratMin 100 ((e.scrollHeight - e.clientHeight) / 100) ≤ 100 :=
    ratMin_le_left _ _
  have h2 : (if 0 < e.scrollTop then ratMin 200 (e.scrollTop / 10) else 0)
      ≤ 200 := by
    split_ifs
    · exact ratMin_le_left _ _
    · norm_num
  have h3 : ratMin 100 ((e.rectWidth * e.rectHeight) / 10000) ≤ 100 :=
    ratMin_le_left _ _
  have h4 : ratMin 50
      ((e.rectWidth * e.rectHeight) / (s.innerWidth * s.innerHeight) * 100)
      ≤ 50 := ratMin_le_left _ _
  linarith

/-- C7: the detector returns `none` when the window is already scrolled past
50 and the document is taller than the viewport, and when no element
qualifies as a candidate; otherwise every candidate's score is at most 450
(the sum of the four caps), and the detector returns the highest-scoring
candidate exactly when its score exceeds 50, returning `none` when the best
score is at most 50. -/
theorem findMainScrollableElement_spec (s : PageState) :
    ((50 < s.windowScrollY ∧ s.windowClientHeight < s.windowScrollHeight) →
      findMainScrollableElement s = none)
    ∧ (∀ e ∈ scorableCandidates s, candidateScore s e ≤ 450)
    ∧ (¬ (50 < s.windowScrollY ∧ s.windowClientHeight < s.windowScrollHeight) →
        (scorableCandidates s = [] → findMainScrollableElement s = none)
        ∧ ∀ c cs, scorableCandidates s = c :: cs →
            bestCandidate s cs c ∈ scorableCandidates s
            ∧ (∀ e ∈ scorableCandidates s,
                candidateScore s e ≤ candidateScore s (bestCandidate s cs c))
            ∧ (50 < candidateScore s (bestCandidate s cs c) →
                findMainScrollableElement s = some (bestCandidate s cs c))
            ∧ (candidateScore s (bestCandidate s cs c) ≤ 50 →
                findMainScrollableElement s = none)) := by
  refine ⟨?_, ?_, ?_⟩
  · intro h
    simp [findMainScrollableElement, h]
  · intro e _
    exact candidateScore_le_450 s e
  · intro hw
    constructor
    · intro hnil
      simp [findMainScrollableElement, hw, hnil]
    · intro c cs hcs
      refine ⟨?_, ?_, ?_, ?_⟩
      · rw [hcs]
        exact bestCandidate_mem s cs c
      · rw [hcs]
        exact bestCandidate_le s cs c
      · intro hgt
        simp [findMainScrollableElement, hw, hcs, hgt]
      · intro hle
        simp [findMainScrollableElement, hw, hcs, not_lt.mpr hle]

def c7Elem : ScrollElem :=
  { nodeType := 1, overflowY := "auto", overflowX := "visible",
    scrollHeight := 2000, clientHeight := 500, scrollTop := 300,
    rectWidth := 800, rectHeight := 600 }

def c7Page : PageState :=
  { windowScrollY := 0, windowScrollHeight := 900, windowClientHeight := 900,
    innerWidth := 1000, innerHeight := 800, elements := [c7Elem] }

/-- Witness for C7: an unscrolled window with one `overflow:auto` element of
content height 2000, client height 500 and scrollTop 300 makes the detector
select that element (its score, 15 + 30 + 48 + 50 = 143, exceeds 50). -/
theorem findMainScrollableElement_spec_witness :
    findMainScrollableElement c7Page = some c7Elem := by
  have hw : ¬ (50 < c7Page.windowScrollY
      ∧ c7Page.windowClientHeight < c7Page.windowScrollHeight) := by decide
  have hcs : scorableCandidates c7Page = [c7Elem] := by decide
  have hscore : 50 < candidateScore c7Page (bestCandidate c7Page [] c7Elem) := by
    norm_num [candidateScore, bestCandidate, ratMin, c7Page, c7Elem]
  exact (((findMainScrollableElement_spec c7Page).2.2 hw).2 c7Elem []
    hcs).2.2.1 hscore

/-- C8: the capture-side `detectPDF` returns true exactly when at least one
signal of its fixed battery fires — the URL probes, the five element probes,
the script global, the two viewer containers, or the chrome-extension URL
probe — and returns false on every document state in which no signal
fires. -/
theorem detectPDFCapture_iff_any_signal (d : DocState) :
    (detectPDFCapture d = true ↔ ∃ c ∈ captureChecks d, c = true)
    ∧ ((∀ c ∈ captureChecks d, c = false) → detectPDFCapture d = false) := by
  constructor
  · simp [detectPDFCapture, List.any_eq_true]
  · intro h
    simp only [detectPDFCapture]
    rw [List.any_eq_false]
    intro c hc
    simp [h c hc]

def c8Doc : DocState :=
  { href := "https://example.com/article", embedPdf := false,
    embedChromePdf := false, objectPdf := false, pluginElem := false,
    iframePdfSrc := false, pdfViewerApplication := false,
    pdfViewerClass := false, viewerIdElem := false }

/-- Witness for C8: a plain HTML article page fires no signal, so the
detector answers false. -/
theorem detectPDFCapture_iff_any_signal_witness :
    detectPDFCapture c8Doc = false :=
  (detectPDFCapture_iff_any_signal c8Doc).2 (by decide)

def c9Doc : DocState :=
  { href := "chrome-extension://abcdefgh/pdf", embedPdf := false,
    embedChromePdf := false, objectPdf := false, pluginElem := false,
    iframePdfSrc := false, pdfViewerApplication := false,
    pdfViewerClass := false, viewerIdElem := false }

/-- Counterexample to C9: on a `chrome-extension://` URL containing `"pdf"`
(but not `".pdf"`) with no other signal present, the capture-side detector
answers true while the restore-side detector answers false — the two copies
are not extensionally equal. -/
theorem detectPDF_capture_restore_disagree :
    detectPDFCapture c9Doc = true ∧ detectPDFRestore c9Doc = false := by
  decide

/-- `v === true` on a boolean is the boolean itself. -/
theorem beqTrue (b : Bool) : (b == true) = b := by
  cases b <;> rfl

/-- Boolean reassociation behind the C9 amendment: the ten capture checks,
ORed in insertion order, equal the restore grouping ORed with the extra
chrome-extension check. -/
theorem orGroups (u1 u2 e1 e2 o p i g v1 v2 x : Bool) :
    (u1 || u2 || (e1 || (e2 || (o || (p || (i || (g || (v1 || (v2 || (x || false))))))))))
      = ((e1 || e2 || o || p || i) || (u1 || u2) || (g || v1 || v2) || x) := by
  cases u1 <;> cases u2 <;> cases e1 <;> cases e2 <;> cases o <;> cases p <;>
    cases i <;> cases g <;> cases v1 <;> cases v2 <;> cases x <;> rfl

/-- C9 (amended): the two `detectPDF` copies agree up to the capture-side's
extra chrome-extension probe: on every document state,
`detectPDFCapture d = detectPDFRestore d || chromeExtensionCheck d`; in
particular the two copies agree on every state where that probe does not
fire. -/
theorem detectPDFCapture_eq_restore_or_chromeExtension (d : DocState) :
    detectPDFCapture d = (detectPDFRestore d || chromeExtensionCheck d) := by
  obtain ⟨href, e1, e2, o, p, i, g, v1, v2⟩ := d
  simp only [detectPDFCapture, captureChecks, detectPDFRestore, urlCheck,
    chromeExtensionCheck, List.any_cons, List.any_nil, beqTrue]
  exact orGroups (strContains href ".pdf") (strContains href "application/pdf")
    e1 e2 o p i g v1 v2
    (strStartsWith href "chrome-extension://" && strContains href "pdf")
